import Mathlib

/-!
Shallow embedding of the Workout Composition & Integrity Subsystem of the
fitness-api repository: the workout CRUD controller
(`src/controllers/workoutsController.js`) and the delete action of the
exercises controller (the final segment of
`src/controllers/usersController.js`), running over the relational store
declared in `src/prisma/schema.prisma`.

The store is modelled as explicit state (`DB`), each controller action as a
function `DB → inputs → Response × DB`.  Database behaviour declared in the
schema is part of the model: the compound unique constraint
`@@unique([workoutId, exerciseId, order])` on `WorkoutExercise`, the
foreign-key constraints, and the `onDelete: Cascade` edges
(Workout → WorkoutExercise, Workout → Log, WorkoutExercise → Log; the
`exerciseId` foreign key is `RESTRICT`).  A constraint violation inside a
write surfaces as the Prisma error code the controller's catch blocks match
on (`P2003` for a foreign-key violation, `P2002` for a unique violation),
and rolls the whole write back.
-/

namespace FitnessApi

/-- A `User` row (schema.prisma, model `User`). -/
structure User where
  id : Int
  username : String
  email : String
  passwordHash : String
  createdAt : Int
deriving DecidableEq, Repr

/-- An `Exercise` row (schema.prisma, model `Exercise`). -/
structure Exercise where
  id : Int
  name : String
  description : Option String
  createdAt : Int
deriving DecidableEq, Repr

/-- A `Workout` row (schema.prisma, model `Workout`). -/
structure Workout where
  id : Int
  userId : Int
  name : String
  description : Option String
  createdAt : Int
deriving DecidableEq, Repr

/-- A `WorkoutExercise` row (schema.prisma, model `WorkoutExercise`).
`weight` is a pure pass-through value in the controller (never computed
with), so its carrier is modelled as `Option Int`. -/
structure WorkoutExercise where
  id : Int
  workoutId : Int
  exerciseId : Int
  sets : Int
  repetitions : Option String
  weight : Option Int
  order : Int
deriving DecidableEq, Repr

/-- A `Log` row (schema.prisma, model `Log`). -/
structure Log where
  id : Int
  userId : Int
  workoutId : Int
  workoutExerciseId : Int
  setNumber : Int
  repsCompleted : Option Int
  weightUsed : Option Int
  notes : Option String
  loggedAt : Int
deriving DecidableEq, Repr

/-- The persistent store: one list per table plus the `SERIAL` counters the
store uses to assign fresh ids, and the clock used for `@default(now())`. -/
structure DB where
  users : List User
  exercises : List Exercise
  workouts : List Workout
  workoutExercises : List WorkoutExercise
  logs : List Log
  nextWorkoutId : Int
  nextWorkoutExerciseId : Int
  now : Int
deriving DecidableEq, Repr

/-- One entry of the `exercises` array of a create/update request body.
`none` in `sets`/`order`/`weight` stands for a JSON field that is absent or
`null`. -/
structure ExerciseEntry where
  exerciseId : Int
  sets : Option Int
  repetitions : Option String
  weight : Option Int
  order : Option Int
deriving DecidableEq, Repr

/-- What the controller sends back: the HTTP status and, for failures, the
`error` string of the JSON body. -/
structure Response where
  status : Nat
  error : Option String
deriving DecidableEq, Repr

/-- JavaScript `String.prototype.trim`: strip leading and trailing
whitespace.  Implemented on the character list (rather than through
`String.trim`, whose `Substring` machinery does not reduce inside the
kernel) so that concrete instances evaluate. -/
def jsTrim (s : String) : String :=
  ⟨((s.data.dropWhile Char.isWhitespace).reverse.dropWhile Char.isWhitespace).reverse⟩

/-- An error response leaves the store untouched (either the failure happens
before any write, or the surrounding transaction rolls back). -/
def fail (db : DB) (status : Nat) (msg : String) : Response × DB :=
  ({ status := status, error := some msg }, db)

/-- The JavaScript coercion `x || 1` applied to an integer-or-nullish field:
absent, `null` and `0` all become `1`; any other integer passes through. -/
def jsOrOne : Option Int → Int
  | none => 1
  | some v => if v = 0 then 1 else v

/-- One `WorkoutExercise` row as built by the controller's `create`/
`createMany` payload (workoutsController.js lines 46-52 and 221-228):
`sets: exercise.sets || 1`, `repetitions: exercise.repetitions?.trim()`,
`weight: exercise.weight`, `order: exercise.order || 1`. -/
def buildRow (workoutId rid : Int) (e : ExerciseEntry) : WorkoutExercise :=
  { id := rid
    workoutId := workoutId
    exerciseId := e.exerciseId
    sets := jsOrOne e.sets
    repetitions := e.repetitions.map jsTrim
    weight := e.weight
    order := jsOrOne e.order }

/-- The rows inserted for an exercise list, with ids assigned sequentially
by the store from its `SERIAL` counter. -/
def buildRows (workoutId startId : Int) (es : List ExerciseEntry) : List WorkoutExercise :=
  es.enum.map fun p => buildRow workoutId (startId + (p.1 : Int)) p.2

/-- The column triple of the schema's compound unique constraint
`@@unique([workoutId, exerciseId, order])`. -/
def weKey (r : WorkoutExercise) : Int × Int × Int :=
  (r.workoutId, r.exerciseId, r.order)

/-- The ids present in the `Exercise` table. -/
def DB.exerciseIdList (db : DB) : List Int :=
  db.exercises.map Exercise.id

/-- The ids present in the `User` table. -/
def DB.userIdList (db : DB) : List Int :=
  db.users.map User.id

/-- The `existingExercises` query of both controller actions
(`findMany where id in exerciseIds`): each stored row whose id occurs in the
requested list, each row once. -/
def foundExercises (db : DB) (ids : List Int) : List Exercise :=
  db.exercises.filter fun e => decide (e.id ∈ ids)

/-- The `WorkoutExercise` rows surviving `deleteMany({where: {workoutId}})`. -/
def keptWE (db : DB) (workoutId : Int) : List WorkoutExercise :=
  db.workoutExercises.filter fun r => decide (r.workoutId ≠ workoutId)

/-- The ids of the `WorkoutExercise` rows removed by
`deleteMany({where: {workoutId}})`. -/
def removedWEIds (db : DB) (workoutId : Int) : List Int :=
  (db.workoutExercises.filter fun r => decide (r.workoutId = workoutId)).map
    WorkoutExercise.id

/-- The `Log` rows surviving the cascade triggered by deleting a workout's
`WorkoutExercise` rows (`Log.workoutExerciseId` is `onDelete: Cascade`). -/
def keptLogs (db : DB) (workoutId : Int) : List Log :=
  db.logs.filter fun l => decide (l.workoutExerciseId ∉ removedWEIds db workoutId)

/-- The scalar patch of `updateWorkout` step (a): the one row with the given
id gets the new name and description, every other row is untouched. -/
def patchWorkouts (db : DB) (workoutId : Int) (newName : String)
    (newDesc : Option String) : List Workout :=
  db.workouts.map fun w =>
    if w.id = workoutId then { w with name := newName, description := newDesc } else w

/-- `exports.createWorkout` (workoutsController.js lines 5-82).
Control flow of the source, in order: name validation (line 11), exercises
array validation (line 17), the existence check comparing
`existingExercises.length` with `exerciseIds.length` — the id list is NOT
de-duplicated (lines 24-37) — then the nested `workout.create`.  Inside the
write, a missing `userId` violates the `Workout.userId` foreign key
(`P2003`, caught at line 68 → 404 "One or more exercises not found"), a
missing `exerciseId` violates the `WorkoutExercise.exerciseId` foreign key
(same catch), and a compound-unique violation raises `P2002`, which no
branch of the catch matches → 500. -/
def createWorkout (db : DB) (userId : Int) (name : String)
    (description : Option String) (exercisesField : Option (List ExerciseEntry)) :
    Response × DB :=
  if jsTrim name = "" then
    fail db 400 "Workout name is required and must be a non-empty string"
  else
    match exercisesField with
    | none => fail db 400 "At least one exercise is required"
    | some exercises =>
      if exercises.isEmpty then
        fail db 400 "At least one exercise is required"
      else
        let exerciseIds := exercises.map ExerciseEntry.exerciseId
        if (foundExercises db exerciseIds).length ≠ exerciseIds.length then
          fail db 404 "One or more exercises do not exist"
        else if userId ∉ db.userIdList then
          fail db 404 "One or more exercises not found"
        else if ¬ ∀ e ∈ exercises, e.exerciseId ∈ db.exerciseIdList then
          fail db 404 "One or more exercises not found"
        else
          let w : Workout :=
            { id := db.nextWorkoutId
              userId := userId
              name := jsTrim name
              description := description.map jsTrim
              createdAt := db.now }
          let rows := buildRows db.nextWorkoutId db.nextWorkoutExerciseId exercises
          if ¬ ((db.workoutExercises ++ rows).map weKey).Nodup then
            fail db 500 "Failed to create workout"
          else
            ({ status := 201, error := none },
             { db with
                workouts := db.workouts ++ [w]
                workoutExercises := db.workoutExercises ++ rows
                nextWorkoutId := db.nextWorkoutId + 1
                nextWorkoutExerciseId := db.nextWorkoutExerciseId + (exercises.length : Int) })

/-- The name check of `updateWorkout` (workoutsController.js line 177):
`name !== undefined && (typeof name !== 'string' || name.trim() === '')`. -/
def nameBad : Option String → Bool
  | some n => jsTrim n == ""
  | none => false

/-- `exports.updateWorkout` (workoutsController.js lines 155-262).
Control flow of the source: workout lookup (404 if absent), name validation,
then one transaction that (a) patches the scalar fields, (b) when
`exercises` is supplied validates it (empty list → thrown 400; the same
non-de-duplicated length comparison → thrown 404) and only then deletes the
workout's `WorkoutExercise` rows (which cascades to their `Log` rows) and
`createMany`s the new rows.  Any throw or constraint violation rolls the
whole transaction back, leaving the store unchanged; a `P2003`/`P2002`
inside `createMany` matches no message test in the catch → 500. -/
def updateWorkout (db : DB) (workoutId : Int) (nameField : Option String)
    (descriptionField : Option (Option String)) (exercisesField : Option (List ExerciseEntry)) :
    Response × DB :=
  match db.workouts.find? (fun w => decide (w.id = workoutId)) with
  | none => fail db 404 "Workout not found"
  | some w0 =>
    if nameBad nameField then
      fail db 400 "Workout name must be a non-empty string if provided"
    else
      let newName := match nameField with
        | some n => jsTrim n
        | none => w0.name
      let newDesc := match descriptionField with
        | none => w0.description
        | some none => w0.description
        | some (some s) => some (jsTrim s)
      match exercisesField with
      | none =>
        ({ status := 200, error := none },
         { db with workouts := patchWorkouts db workoutId newName newDesc })
      | some exercises =>
        if exercises.isEmpty then
          fail db 400 "At least one exercise is required"
        else
          let exerciseIds := exercises.map ExerciseEntry.exerciseId
          if (foundExercises db exerciseIds).length ≠ exerciseIds.length then
            fail db 404 "One or more exercises do not exist"
          else
            let rows := buildRows workoutId db.nextWorkoutExerciseId exercises
            if ¬ ∀ e ∈ exercises, e.exerciseId ∈ db.exerciseIdList then
              fail db 500 "Failed to update workout"
            else if ¬ ((keptWE db workoutId ++ rows).map weKey).Nodup then
              fail db 500 "Failed to update workout"
            else
              ({ status := 200, error := none },
               { db with
                  workouts := patchWorkouts db workoutId newName newDesc
                  workoutExercises := keptWE db workoutId ++ rows
                  logs := keptLogs db workoutId
                  nextWorkoutExerciseId := db.nextWorkoutExerciseId + (exercises.length : Int) })

/-- `exports.deleteWorkout` (workoutsController.js lines 265-299).
Lookup then `workout.delete`; by the schema's cascade edges the delete
removes every `WorkoutExercise` of the workout, and every `Log` whose
`workoutId` is the workout or whose `workoutExerciseId` is one of the
removed rows. -/
def deleteWorkout (db : DB) (workoutId : Int) : Response × DB :=
  match db.workouts.find? (fun w => decide (w.id = workoutId)) with
  | none => fail db 404 "Workout not found"
  | some _ =>
    ({ status := 204, error := none },
     { db with
        workouts := db.workouts.filter fun w => decide (w.id ≠ workoutId)
        workoutExercises := keptWE db workoutId
        logs := db.logs.filter fun l =>
          decide (l.workoutId ≠ workoutId ∧ l.workoutExerciseId ∉ removedWEIds db workoutId) })

/-- `exports.deleteExercise` of the exercises controller (the final segment
of src/controllers/usersController.js, lines 654-688).  Lookup via
`findUnique` (404 "Exercise not found" if absent), then `exercise.delete`:
when some `WorkoutExercise` still references the exercise, the schema's
`RESTRICT` foreign key on `WorkoutExercise.exerciseId` makes the delete
raise `P2003`, which the catch block maps to HTTP 400 with the
remove-from-workouts-first message — a block, not a cascade; otherwise the
row is deleted and the action answers 204. -/
def deleteExercise (db : DB) (exerciseId : Int) : Response × DB :=
  match db.exercises.find? (fun e => decide (e.id = exerciseId)) with
  | none => fail db 404 "Exercise not found"
  | some _ =>
    if db.workoutExercises.any fun r => decide (r.exerciseId = exerciseId) then
      fail db 400 "Cannot delete exercise that is used in workouts. Remove it from workouts first."
    else
      ({ status := 204, error := none },
       { db with exercises := db.exercises.filter fun e => decide (e.id ≠ exerciseId) })

/-! ### Library: counting through the non-de-duplicated existence check -/

/-- For a duplicate-free table `E`, keeping the rows whose key occurs in a
request list `ids` yields as many rows as `ids` has entries exactly when
`ids` is itself duplicate-free and every requested key is present. -/
theorem length_filter_mem_eq_iff {α : Type} [DecidableEq α] (E ids : List α) (hE : E.Nodup) :
    ((E.filter fun i => decide (i ∈ ids)).length = ids.length) ↔
      ids.Nodup ∧ ∀ i ∈ ids, i ∈ E := by
  constructor
  · intro h
    have hF : (E.filter fun i => decide (i ∈ ids)).Nodup := hE.filter _
    have hFsub : (E.filter fun i => decide (i ∈ ids)).toFinset ⊆ ids.toFinset := by
      intro a ha
      rw [List.mem_toFinset] at ha ⊢
      exact (List.mem_filter.mp ha).2 |> of_decide_eq_true
    have hFcard : (E.filter fun i => decide (i ∈ ids)).toFinset.card =
        (E.filter fun i => decide (i ∈ ids)).length := by
      rw [List.card_toFinset, hF.dedup]
    have hle1 : ids.toFinset.card ≤ ids.length := List.toFinset_card_le ids
    have hle2 : (E.filter fun i => decide (i ∈ ids)).toFinset.card ≤ ids.toFinset.card :=
      Finset.card_le_card hFsub
    have hcard : ids.toFinset.card = ids.length := by omega
    have hnodup : ids.Nodup := by
      rw [List.card_toFinset] at hcard
      have hded := (List.dedup_sublist ids).eq_of_length hcard
      rw [← hded]
      exact List.nodup_dedup ids
    have hset : (E.filter fun i => decide (i ∈ ids)).toFinset = ids.toFinset := by
      apply Finset.eq_of_subset_of_card_le hFsub
      omega
    refine ⟨hnodup, fun i hi => ?_⟩
    have hmem : i ∈ (E.filter fun i => decide (i ∈ ids)).toFinset := by
      rw [hset, List.mem_toFinset]; exact hi
    rw [List.mem_toFinset] at hmem
    exact (List.mem_filter.mp hmem).1
  · rintro ⟨hnodup, hsub⟩
    have hF : (E.filter fun i => decide (i ∈ ids)).Nodup := hE.filter _
    have hperm : (E.filter fun i => decide (i ∈ ids)).Perm ids := by
      rw [List.perm_ext_iff_of_nodup hF hnodup]
      intro a
      rw [List.mem_filter]
      constructor
      · rintro ⟨-, h⟩; exact of_decide_eq_true h
      · intro h; exact ⟨hsub a h, decide_eq_true h⟩
    exact hperm.length_eq

/-- Filtering the `Exercise` table by requested id and filtering the id
column give the same number of rows. -/
theorem foundExercises_length (db : DB) (ids : List Int) :
    (foundExercises db ids).length =
      (db.exerciseIdList.filter fun i => decide (i ∈ ids)).length := by
  rw [foundExercises, DB.exerciseIdList, List.filter_map, List.length_map]
  rfl

/-- The controller's existence check (`existingExercises.length ===
exerciseIds.length`, with `exerciseIds` not de-duplicated) passes exactly
when the request's id list is duplicate-free and every id exists. -/
theorem existenceCheck_iff (db : DB) (hdb : db.exerciseIdList.Nodup)
    (es : List ExerciseEntry) :
    ((foundExercises db (es.map ExerciseEntry.exerciseId)).length =
        (es.map ExerciseEntry.exerciseId).length) ↔
      (es.map ExerciseEntry.exerciseId).Nodup ∧
        ∀ e ∈ es, e.exerciseId ∈ db.exerciseIdList := by
  rw [foundExercises_length,
    length_filter_mem_eq_iff db.exerciseIdList (es.map ExerciseEntry.exerciseId) hdb]
  constructor
  · rintro ⟨h1, h2⟩
    exact ⟨h1, fun e he => h2 e.exerciseId (List.mem_map_of_mem ExerciseEntry.exerciseId he)⟩
  · rintro ⟨h1, h2⟩
    refine ⟨h1, fun i hi => ?_⟩
    obtain ⟨e, he, rfl⟩ := List.mem_map.mp hi
    exact h2 e he

/-! ### Library: the rows built for an exercise list -/

theorem buildRows_length (workoutId startId : Int) (es : List ExerciseEntry) :
    (buildRows workoutId startId es).length = es.length := by
  simp [buildRows, List.enum_length]

theorem mem_buildRows (workoutId startId : Int) (es : List ExerciseEntry)
    (r : WorkoutExercise) (hr : r ∈ buildRows workoutId startId es) :
    r.workoutId = workoutId ∧ startId ≤ r.id := by
  simp only [buildRows, List.mem_map] at hr
  obtain ⟨⟨i, e⟩, hmem, rfl⟩ := hr
  refine ⟨rfl, ?_⟩
  simp only [buildRow]
  omega

theorem buildRows_get (workoutId startId : Int) (es : List ExerciseEntry)
    (i : Nat) (hi : i < es.length) :
    (buildRows workoutId startId es).get
        ⟨i, by rw [buildRows_length]; exact hi⟩ =
      buildRow workoutId (startId + (i : Int)) (es.get ⟨i, hi⟩) := by
  simp [buildRows, List.get_eq_getElem, List.getElem_map, List.getElem_enum]

/-! ### Library: case analysis of `createWorkout` -/

/-- Every failing branch of `createWorkout` returns the store unchanged. -/
theorem createWorkout_not_created (db : DB) (u : Int) (n : String) (d : Option String)
    (esf : Option (List ExerciseEntry)) :
    (createWorkout db u n d esf).1.status = 201 ∨ (createWorkout db u n d esf).2 = db := by
  unfold createWorkout
  by_cases hn : jsTrim n = ""
  · rw [if_pos hn]; right; rfl
  rw [if_neg hn]
  cases esf with
  | none => right; rfl
  | some es =>
    dsimp only
    split_ifs <;> first | (left; rfl) | (right; rfl)

/-- The existence check fires before any write: when the length comparison
fails, `createWorkout` answers 404 and the store is untouched. -/
theorem createWorkout_checkFail (db : DB) (u : Int) (n : String) (d : Option String)
    (es : List ExerciseEntry) (hn : ¬ jsTrim n = "") (hne : ¬ es.isEmpty = true)
    (hlen : (foundExercises db (es.map ExerciseEntry.exerciseId)).length ≠
      (es.map ExerciseEntry.exerciseId).length) :
    createWorkout db u n d (some es) = fail db 404 "One or more exercises do not exist" := by
  unfold createWorkout
  rw [if_neg hn]
  dsimp only
  rw [if_neg hne, if_pos hlen]

/-- A `201` answer commits exactly one `Workout` row and the built
`WorkoutExercise` rows. -/
theorem createWorkout_success (db : DB) (u : Int) (n : String) (d : Option String)
    (es : List ExerciseEntry) (h : (createWorkout db u n d (some es)).1.status = 201) :
    createWorkout db u n d (some es) =
      ({ status := 201, error := none },
       { db with
          workouts := db.workouts ++
            [{ id := db.nextWorkoutId, userId := u, name := jsTrim n,
               description := d.map jsTrim, createdAt := db.now }]
          workoutExercises := db.workoutExercises ++
            buildRows db.nextWorkoutId db.nextWorkoutExerciseId es
          nextWorkoutId := db.nextWorkoutId + 1
          nextWorkoutExerciseId := db.nextWorkoutExerciseId + (es.length : Int) }) := by
  unfold createWorkout at h ⊢
  by_cases hn : jsTrim n = ""
  · rw [if_pos hn] at h; simp [fail] at h
  rw [if_neg hn] at h ⊢
  dsimp only at h ⊢
  split_ifs at h ⊢ <;> first | rfl | simp [fail] at h

/-! ### Library: case analysis of `updateWorkout` -/

/-- Looking up a missing workout fails before any write. -/
theorem updateWorkout_notFound (db : DB) (wid : Int) (nf : Option String)
    (df : Option (Option String)) (esf : Option (List ExerciseEntry))
    (h : db.workouts.find? (fun w => decide (w.id = wid)) = none) :
    updateWorkout db wid nf df esf = fail db 404 "Workout not found" := by
  unfold updateWorkout; rw [h]

/-- Every failing branch of `updateWorkout` (thrown validation errors and
constraint violations alike) rolls the transaction back to the original
store. -/
theorem updateWorkout_not_updated (db : DB) (wid : Int) (nf : Option String)
    (df : Option (Option String)) (esf : Option (List ExerciseEntry)) :
    (updateWorkout db wid nf df esf).1.status = 200 ∨ (updateWorkout db wid nf df esf).2 = db := by
  unfold updateWorkout
  cases hf : db.workouts.find? (fun w => decide (w.id = wid)) with
  | none => right; rfl
  | some w0 =>
    dsimp only
    by_cases hn : nameBad nf = true
    · rw [if_pos hn]; right; rfl
    rw [if_neg hn]
    cases esf with
    | none => left; rfl
    | some es =>
      dsimp only
      split_ifs <;> first | (left; rfl) | (right; rfl)

/-- Inside the update transaction the existence check throws before the
`deleteMany`: the whole call rolls back to the original store. -/
theorem updateWorkout_checkFail (db : DB) (wid : Int) (nf : Option String)
    (df : Option (Option String)) (es : List ExerciseEntry) (w0 : Workout)
    (hf : db.workouts.find? (fun w => decide (w.id = wid)) = some w0)
    (hn : ¬ nameBad nf = true) (hne : ¬ es.isEmpty = true)
    (hlen : (foundExercises db (es.map ExerciseEntry.exerciseId)).length ≠
      (es.map ExerciseEntry.exerciseId).length) :
    updateWorkout db wid nf df (some es) = fail db 404 "One or more exercises do not exist" := by
  unfold updateWorkout
  simp only [hf]
  rw [if_neg hn]
  rw [if_neg hne, if_pos hlen]

/-- A `200` answer on an update that supplies exercises commits the scalar
patch, the replace-all of the workout's rows, and the log cascade. -/
theorem updateWorkout_success_some (db : DB) (wid : Int) (nf : Option String)
    (df : Option (Option String)) (es : List ExerciseEntry)
    (h : (updateWorkout db wid nf df (some es)).1.status = 200) :
    ∃ nn nd,
      updateWorkout db wid nf df (some es) =
        ({ status := 200, error := none },
         { db with
            workouts := patchWorkouts db wid nn nd
            workoutExercises := keptWE db wid ++ buildRows wid db.nextWorkoutExerciseId es
            logs := keptLogs db wid
            nextWorkoutExerciseId := db.nextWorkoutExerciseId + (es.length : Int) }) := by
  unfold updateWorkout at h ⊢
  cases hf : db.workouts.find? (fun w => decide (w.id = wid)) with
  | none => rw [hf] at h; simp [fail] at h
  | some w0 =>
    rw [hf] at h
    dsimp only at h ⊢
    by_cases hn : nameBad nf = true
    · rw [if_pos hn] at h; simp [fail] at h
    rw [if_neg hn] at h ⊢
    split_ifs at h ⊢ <;> first | (exact ⟨_, _, rfl⟩) | simp [fail] at h

/-- A `200` answer on an update without exercises commits the scalar patch
only. -/
theorem updateWorkout_success_none (db : DB) (wid : Int) (nf : Option String)
    (df : Option (Option String))
    (h : (updateWorkout db wid nf df none).1.status = 200) :
    ∃ nn nd,
      updateWorkout db wid nf df none =
        ({ status := 200, error := none },
         { db with workouts := patchWorkouts db wid nn nd }) := by
  unfold updateWorkout at h ⊢
  cases hf : db.workouts.find? (fun w => decide (w.id = wid)) with
  | none => rw [hf] at h; simp [fail] at h
  | some w0 =>
    rw [hf] at h
    dsimp only at h ⊢
    by_cases hn : nameBad nf = true
    · rw [if_pos hn] at h; simp [fail] at h
    rw [if_neg hn] at h ⊢
    exact ⟨_, _, rfl⟩

/-- No branch of `updateWorkout` ever touches the `User` or `Exercise`
tables. -/
theorem updateWorkout_frame (db : DB) (wid : Int) (nf : Option String)
    (df : Option (Option String)) (esf : Option (List ExerciseEntry)) :
    (updateWorkout db wid nf df esf).2.users = db.users ∧
      (updateWorkout db wid nf df esf).2.exercises = db.exercises := by
  unfold updateWorkout
  cases hf : db.workouts.find? (fun w => decide (w.id = wid)) with
  | none => exact ⟨rfl, rfl⟩
  | some w0 =>
    dsimp only
    by_cases hn : nameBad nf = true
    · rw [if_pos hn]; exact ⟨rfl, rfl⟩
    rw [if_neg hn]
    cases esf with
    | none => exact ⟨rfl, rfl⟩
    | some es =>
      dsimp only
      split_ifs <;> exact ⟨rfl, rfl⟩

/-- Once the existence check has passed, `createWorkout` can no longer
answer with the check's NotFound(Exercise) message. -/
theorem createWorkout_checkPass_error (db : DB) (u : Int) (n : String) (d : Option String)
    (es : List ExerciseEntry) (hn : ¬ jsTrim n = "") (hne : ¬ es.isEmpty = true)
    (hlen : ¬ (foundExercises db (es.map ExerciseEntry.exerciseId)).length ≠
      (es.map ExerciseEntry.exerciseId).length) :
    (createWorkout db u n d (some es)).1.error ≠ some "One or more exercises do not exist" := by
  unfold createWorkout
  rw [if_neg hn]
  dsimp only
  rw [if_neg hne, if_neg hlen]
  split_ifs <;>
    first
      | exact fun hc => Option.noConfusion hc
      | exact fun hc => absurd (Option.some.inj hc) (by decide)

/-- Once the existence check has passed, `updateWorkout` can no longer
answer with the check's NotFound(Exercise) message. -/
theorem updateWorkout_checkPass_error (db : DB) (wid : Int) (nf : Option String)
    (df : Option (Option String)) (es : List ExerciseEntry) (w0 : Workout)
    (hf : db.workouts.find? (fun w => decide (w.id = wid)) = some w0)
    (hn : ¬ nameBad nf = true) (hne : ¬ es.isEmpty = true)
    (hlen : ¬ (foundExercises db (es.map ExerciseEntry.exerciseId)).length ≠
      (es.map ExerciseEntry.exerciseId).length) :
    (updateWorkout db wid nf df (some es)).1.error ≠ some "One or more exercises do not exist" := by
  unfold updateWorkout
  simp only [hf]
  rw [if_neg hn]
  rw [if_neg hne, if_neg hlen]
  split_ifs <;>
    first
      | exact fun hc => Option.noConfusion hc
      | exact fun hc => absurd (Option.some.inj hc) (by decide)

/-! ### Library: the scalar patch -/

/-- The scalar patch leaves every workout row other than the target
unchanged. -/
theorem patchWorkouts_filter_ne (db : DB) (wid : Int) (nn : String) (nd : Option String) :
    ((patchWorkouts db wid nn nd).filter fun w => decide (w.id ≠ wid)) =
      db.workouts.filter fun w => decide (w.id ≠ wid) := by
  unfold patchWorkouts
  induction db.workouts with
  | nil => rfl
  | cons w l ih =>
    by_cases h : w.id = wid <;> simp [List.filter_cons, h] <;> simpa using ih

/-- A patched row carrying the target id descends from a stored row with
that id, with `userId` and `createdAt` untouched. -/
theorem patchWorkouts_mem_target (db : DB) (wid : Int) (nn : String) (nd : Option String)
    (w' : Workout) (hmem : w' ∈ patchWorkouts db wid nn nd) (hid : w'.id = wid) :
    ∃ w ∈ db.workouts, w.id = wid ∧ w'.userId = w.userId ∧ w'.createdAt = w.createdAt := by
  unfold patchWorkouts at hmem
  obtain ⟨w, hw, heq⟩ := List.mem_map.mp hmem
  by_cases h : w.id = wid
  · rw [if_pos h] at heq
    exact ⟨w, hw, h, by rw [← heq], by rw [← heq]⟩
  · rw [if_neg h] at heq
    subst heq
    exact absurd hid h

/-! ### Library: case analysis of the deletions -/

theorem deleteWorkout_notFound (db : DB) (wid : Int)
    (h : db.workouts.find? (fun w => decide (w.id = wid)) = none) :
    deleteWorkout db wid = fail db 404 "Workout not found" := by
  unfold deleteWorkout; rw [h]

/-- A found workout is deleted together with its `WorkoutExercise` rows and
the logs reachable from it along the two cascade edges. -/
theorem deleteWorkout_found (db : DB) (wid : Int) (w0 : Workout)
    (h : db.workouts.find? (fun w => decide (w.id = wid)) = some w0) :
    deleteWorkout db wid =
      ({ status := 204, error := none },
       { db with
          workouts := db.workouts.filter fun w => decide (w.id ≠ wid)
          workoutExercises := keptWE db wid
          logs := db.logs.filter fun l =>
            decide (l.workoutId ≠ wid ∧ l.workoutExerciseId ∉ removedWEIds db wid) }) := by
  unfold deleteWorkout; rw [h]

theorem deleteExercise_notFound (db : DB) (eid : Int)
    (h : db.exercises.find? (fun e => decide (e.id = eid)) = none) :
    deleteExercise db eid = fail db 404 "Exercise not found" := by
  unfold deleteExercise; rw [h]

theorem deleteExercise_blocked (db : DB) (eid : Int) (e0 : Exercise)
    (hf : db.exercises.find? (fun e => decide (e.id = eid)) = some e0)
    (href : (db.workoutExercises.any fun r => decide (r.exerciseId = eid)) = true) :
    deleteExercise db eid =
      fail db 400
        "Cannot delete exercise that is used in workouts. Remove it from workouts first." := by
  unfold deleteExercise
  simp only [hf]
  rw [if_pos href]

/-! ### A concrete store for the witnesses and counterexamples -/

/-- Exercise 5 of the sample store. -/
def squat : Exercise :=
  { id := 5, name := "Squat", description := none, createdAt := 0 }

/-- Exercise 6 of the sample store. -/
def bench : Exercise :=
  { id := 6, name := "Bench Press", description := none, createdAt := 0 }

/-- User 1 of the sample store. -/
def alice : User :=
  { id := 1, username := "alice", email := "alice at example dot com",
    passwordHash := "hash", createdAt := 0 }

/-- Workout 10 of the sample store, owned by user 1. -/
def legDay : Workout :=
  { id := 10, userId := 1, name := "Leg Day", description := none, createdAt := 0 }

/-- The one `WorkoutExercise` row of the sample store (workout 10,
exercise 5, order 1). -/
def legRow : WorkoutExercise :=
  { id := 100, workoutId := 10, exerciseId := 5, sets := 3,
    repetitions := none, weight := none, order := 1 }

/-- A log row for the sample workout. -/
def legLog : Log :=
  { id := 1000, userId := 1, workoutId := 10, workoutExerciseId := 100,
    setNumber := 1, repsCompleted := none, weightUsed := none, notes := none, loggedAt := 0 }

/-- A small well-formed store: one user, two exercises, one workout with
one `WorkoutExercise` row and one `Log` row. -/
def sampleDB : DB :=
  { users := [alice], exercises := [squat, bench], workouts := [legDay],
    workoutExercises := [legRow], logs := [legLog],
    nextWorkoutId := 11, nextWorkoutExerciseId := 101, now := 0 }

/-- Request entry: exercise 5 at order 1. -/
def entry5o1 : ExerciseEntry :=
  { exerciseId := 5, sets := none, repetitions := none, weight := none, order := some 1 }

/-- Request entry: exercise 5 at order 2. -/
def entry5o2 : ExerciseEntry :=
  { exerciseId := 5, sets := none, repetitions := none, weight := none, order := some 2 }

/-- Request entry: exercise 6 at order 2. -/
def entry6o2 : ExerciseEntry :=
  { exerciseId := 6, sets := none, repetitions := none, weight := none, order := some 2 }

/-- Request entry referencing an exercise id absent from the sample store. -/
def entry999 : ExerciseEntry :=
  { exerciseId := 999, sets := none, repetitions := none, weight := none, order := none }

/-- Request entry with a negative `sets` and a zero `order`. -/
def entryNeg : ExerciseEntry :=
  { exerciseId := 5, sets := some (-3), repetitions := none, weight := none, order := some 0 }

/-- A list with a member is not empty. -/
theorem isEmpty_false_of_ne_nil (es : List ExerciseEntry) (hne : es ≠ []) :
    ¬ es.isEmpty = true := by
  cases es with
  | nil => exact absurd rfl hne
  | cons a l => simp

/-- Two distinct positions carrying the same `exerciseId` witness a
duplicate in the request's id list. -/
theorem map_exerciseId_not_nodup (es : List ExerciseEntry) (i j : Fin es.length) (hij : i ≠ j)
    (hid : (es.get i).exerciseId = (es.get j).exerciseId) :
    ¬ (es.map ExerciseEntry.exerciseId).Nodup := by
  intro hN
  have hinj := List.nodup_iff_injective_get.mp hN
  have hlen : (es.map ExerciseEntry.exerciseId).length = es.length := List.length_map es _
  have h1 : (es.map ExerciseEntry.exerciseId).get ⟨i.1, by rw [hlen]; exact i.isLt⟩ =
      (es.get i).exerciseId := by simp
  have h2 : (es.map ExerciseEntry.exerciseId).get ⟨j.1, by rw [hlen]; exact j.isLt⟩ =
      (es.get j).exerciseId := by simp
  have hget : (es.map ExerciseEntry.exerciseId).get ⟨i.1, by rw [hlen]; exact i.isLt⟩ =
      (es.map ExerciseEntry.exerciseId).get ⟨j.1, by rw [hlen]; exact j.isLt⟩ := by
    rw [h1, h2]; exact hid
  have heq := hinj hget
  have hval : i.1 = j.1 := by simpa using heq
  exact hij (Fin.ext hval)

/-! ### C1 — the existence check versus duplicated exerciseIds -/

/-- C1, counterexample: a `createWorkout` request whose two entries both
reference the existing exercise 5, at the different resolved orders 1 and 2,
is rejected by the existence check with the NotFound(Exercise) answer — the
found count (1 row) is compared against the entry count (2), not against
the count of distinct requested ids, so the check does not pass even though
every referenced exercise exists. -/
theorem createWorkout_duplicate_ids_rejected :
    entry5o1.exerciseId = entry5o2.exerciseId ∧
    jsOrOne entry5o1.order ≠ jsOrOne entry5o2.order ∧
    (∀ e ∈ [entry5o1, entry5o2], e.exerciseId ∈ sampleDB.exerciseIdList) ∧
    (createWorkout sampleDB 1 "Leg Day" none (some [entry5o1, entry5o2])).1 =
      { status := 404, error := some "One or more exercises do not exist" } := by
  refine ⟨rfl, by decide, by decide, by decide⟩

/-- C1 (amended): over a store whose exercise ids are duplicate-free, the
exercise-existence check of `createWorkout` and of
`updateWorkout`-with-exercises passes (the NotFound(Exercise) message is
not returned) if and only if the request's `exerciseId`s are pairwise
distinct AND every one of them references an existing Exercise: the found
count is compared against the raw entry count, so a request that repeats an
exerciseId — even at different order values — fails the check. -/
theorem existenceCheck_passes_iff_nodup (db : DB) (hdb : db.exerciseIdList.Nodup)
    (es : List ExerciseEntry) (hne : es ≠ []) :
    (∀ u n d, ¬ jsTrim n = "" →
      ((createWorkout db u n d (some es)).1.error ≠ some "One or more exercises do not exist" ↔
        (es.map ExerciseEntry.exerciseId).Nodup ∧
          ∀ e ∈ es, e.exerciseId ∈ db.exerciseIdList)) ∧
    (∀ wid nf df w0, db.workouts.find? (fun w => decide (w.id = wid)) = some w0 →
      ¬ nameBad nf = true →
      ((updateWorkout db wid nf df (some es)).1.error ≠ some "One or more exercises do not exist" ↔
        (es.map ExerciseEntry.exerciseId).Nodup ∧
          ∀ e ∈ es, e.exerciseId ∈ db.exerciseIdList)) := by
  have hne2 : ¬ es.isEmpty = true := isEmpty_false_of_ne_nil es hne
  by_cases hlen : (foundExercises db (es.map ExerciseEntry.exerciseId)).length =
      (es.map ExerciseEntry.exerciseId).length
  · have hrhs := (existenceCheck_iff db hdb es).mp hlen
    constructor
    · intro u n d hn
      exact iff_of_true
        (createWorkout_checkPass_error db u n d es hn hne2 (fun h => h hlen)) hrhs
    · intro wid nf df w0 hf hnn
      exact iff_of_true
        (updateWorkout_checkPass_error db wid nf df es w0 hf hnn hne2 (fun h => h hlen)) hrhs
  · have hrhs : ¬ ((es.map ExerciseEntry.exerciseId).Nodup ∧
        ∀ e ∈ es, e.exerciseId ∈ db.exerciseIdList) :=
      fun hc => hlen ((existenceCheck_iff db hdb es).mpr hc)
    constructor
    · intro u n d hn
      rw [createWorkout_checkFail db u n d es hn hne2 hlen]
      exact iff_of_false (fun h2 => h2 rfl) hrhs
    · intro wid nf df w0 hf hnn
      rw [updateWorkout_checkFail db wid nf df es w0 hf hnn hne2 hlen]
      exact iff_of_false (fun h2 => h2 rfl) hrhs

/-- C1, witness: a duplicate-free request whose two ids (5 and 6) both
exist passes the existence check of `createWorkout` on the sample store. -/
theorem existenceCheck_passes_iff_nodup_witness :
    (createWorkout sampleDB 1 "Leg Day" none (some [entry5o1, entry6o2])).1.error ≠
      some "One or more exercises do not exist" :=
  ((existenceCheck_passes_iff_nodup sampleDB (by decide) [entry5o1, entry6o2]
      (by decide)).1 1 "Leg Day" none (by decide)).mpr (by decide)

/-! ### C2 — duplicate (exerciseId, order) pairs -/

/-- C2, counterexample: `updateWorkout` on workout 10 with two entries that
share both `exerciseId` 5 and resolved order 1 does not answer 409
Conflict: it answers 404 (the existence check trips over the duplicated id
first), and the store — in particular the original `WorkoutExercise` set —
is unchanged. -/
theorem updateWorkout_duplicate_pair_not_conflict :
    (updateWorkout sampleDB 10 none none (some [entry5o1, entry5o1])).1.status = 404 ∧
    (updateWorkout sampleDB 10 none none (some [entry5o1, entry5o1])).1.status ≠ 409 ∧
    (updateWorkout sampleDB 10 none none (some [entry5o1, entry5o1])).2 = sampleDB := by
  refine ⟨by decide, by decide, by decide⟩

/-- C2 (amended): a create or update request containing two entries that
share an `exerciseId` and the same resolved order fails — with
NotFound(Exercise) (404, the existence check's answer on any duplicated
id), not with Conflict (409) — and nothing is persisted: the store, and in
particular the workout's original `WorkoutExercise` set, is exactly as
before the call. -/
theorem duplicate_pair_request_fails_notFound (db : DB) (hdb : db.exerciseIdList.Nodup)
    (es : List ExerciseEntry) (i j : Fin es.length) (hij : i ≠ j)
    (hid : (es.get i).exerciseId = (es.get j).exerciseId)
    (hord : jsOrOne (es.get i).order = jsOrOne (es.get j).order) :
    (∀ u n d, ¬ jsTrim n = "" →
      createWorkout db u n d (some es) = fail db 404 "One or more exercises do not exist") ∧
    (∀ wid nf df w0, db.workouts.find? (fun w => decide (w.id = wid)) = some w0 →
      ¬ nameBad nf = true →
      updateWorkout db wid nf df (some es) =
        fail db 404 "One or more exercises do not exist") := by
  have hne : es ≠ [] := by
    intro hc
    subst hc
    exact absurd i.isLt (by simp)
  have hne2 : ¬ es.isEmpty = true := isEmpty_false_of_ne_nil es hne
  have hndup := map_exerciseId_not_nodup es i j hij hid
  have hlen : (foundExercises db (es.map ExerciseEntry.exerciseId)).length ≠
      (es.map ExerciseEntry.exerciseId).length := by
    rw [Ne, existenceCheck_iff db hdb es]
    rintro ⟨hN, -⟩
    exact hndup hN
  refine ⟨fun u n d hn => createWorkout_checkFail db u n d es hn hne2 hlen,
    fun wid nf df w0 hf hnn => updateWorkout_checkFail db wid nf df es w0 hf hnn hne2 hlen⟩

/-- C2, witness: the amended statement applied to the duplicate-pair update
of the counterexample scenario. -/
theorem duplicate_pair_request_fails_notFound_witness :
    updateWorkout sampleDB 10 none none (some [entry5o1, entry5o1]) =
      fail sampleDB 404 "One or more exercises do not exist" :=
  (duplicate_pair_request_fails_notFound sampleDB (by decide) [entry5o1, entry5o1]
      ⟨0, by decide⟩ ⟨1, by decide⟩ (by decide) rfl rfl).2
    10 none none legDay (by decide) (by decide)

/-! ### C3 — createWorkout atomicity -/

/-- C3: a `createWorkout` call referencing at least one nonexistent
exerciseId fails (no 201) and leaves the store exactly as before — zero new
`Workout` and `WorkoutExercise` rows; a successful call commits exactly one
`Workout` row and one `WorkoutExercise` row per input entry. -/
theorem createWorkout_atomicity (db : DB) (hdb : db.exerciseIdList.Nodup)
    (u : Int) (n : String) (d : Option String) :
    (∀ es : List ExerciseEntry, (∃ e ∈ es, e.exerciseId ∉ db.exerciseIdList) →
      (createWorkout db u n d (some es)).1.status ≠ 201 ∧
        (createWorkout db u n d (some es)).2 = db) ∧
    (∀ es : List ExerciseEntry, (createWorkout db u n d (some es)).1.status = 201 →
      (createWorkout db u n d (some es)).2.workouts.length = db.workouts.length + 1 ∧
      (createWorkout db u n d (some es)).2.workoutExercises =
        db.workoutExercises ++ buildRows db.nextWorkoutId db.nextWorkoutExerciseId es ∧
      (buildRows db.nextWorkoutId db.nextWorkoutExerciseId es).length = es.length) := by
  constructor
  · rintro es ⟨e0, he0, hbad⟩
    have hne : es ≠ [] := by rintro rfl; exact absurd he0 (by simp)
    have hne2 : ¬ es.isEmpty = true := isEmpty_false_of_ne_nil es hne
    have hlen : (foundExercises db (es.map ExerciseEntry.exerciseId)).length ≠
        (es.map ExerciseEntry.exerciseId).length := by
      rw [Ne, existenceCheck_iff db hdb es]
      rintro ⟨-, hall⟩
      exact hbad (hall e0 he0)
    by_cases hn : jsTrim n = ""
    · unfold createWorkout
      rw [if_pos hn]
      exact ⟨by simp [fail], rfl⟩
    · rw [createWorkout_checkFail db u n d es hn hne2 hlen]
      exact ⟨by simp [fail], rfl⟩
  · intro es h
    rw [createWorkout_success db u n d es h]
    refine ⟨by simp, rfl, buildRows_length db.nextWorkoutId db.nextWorkoutExerciseId es⟩

/-- C3, witness: creating with the nonexistent exercise 999 on the sample
store changes nothing and does not answer 201. -/
theorem createWorkout_atomicity_witness :
    (createWorkout sampleDB 1 "Leg Day" none (some [entry999])).1.status ≠ 201 ∧
      (createWorkout sampleDB 1 "Leg Day" none (some [entry999])).2 = sampleDB :=
  (createWorkout_atomicity sampleDB (by decide) 1 "Leg Day" none).1 [entry999] (by decide)

/-! ### C4 — updateWorkout validates before mutating -/

/-- C4: an `updateWorkout` call on an existing workout (with a valid name
patch) whose exercises list references at least one nonexistent exerciseId
fails with the NotFound(Exercise) answer and performs no mutation at all:
the store — the workout's scalar fields and its original `WorkoutExercise`
set included — is exactly as before the call. -/
theorem updateWorkout_invalid_exercise_no_mutation (db : DB) (hdb : db.exerciseIdList.Nodup)
    (wid : Int) (nf : Option String) (df : Option (Option String))
    (es : List ExerciseEntry) (w0 : Workout)
    (hf : db.workouts.find? (fun w => decide (w.id = wid)) = some w0)
    (hn : ¬ nameBad nf = true)
    (hbad : ∃ e ∈ es, e.exerciseId ∉ db.exerciseIdList) :
    updateWorkout db wid nf df (some es) =
      fail db 404 "One or more exercises do not exist" := by
  obtain ⟨e0, he0, hbad0⟩ := hbad
  have hne : es ≠ [] := by rintro rfl; exact absurd he0 (by simp)
  have hne2 : ¬ es.isEmpty = true := isEmpty_false_of_ne_nil es hne
  have hlen : (foundExercises db (es.map ExerciseEntry.exerciseId)).length ≠
      (es.map ExerciseEntry.exerciseId).length := by
    rw [Ne, existenceCheck_iff db hdb es]
    rintro ⟨-, hall⟩
    exact hbad0 (hall e0 he0)
  exact updateWorkout_checkFail db wid nf df es w0 hf hn hne2 hlen

/-- C4, witness: updating workout 10 with the nonexistent exercise 999
answers 404 and leaves the sample store untouched. -/
theorem updateWorkout_invalid_exercise_no_mutation_witness :
    updateWorkout sampleDB 10 (some "New Name") none (some [entry999]) =
      fail sampleDB 404 "One or more exercises do not exist" :=
  updateWorkout_invalid_exercise_no_mutation sampleDB (by decide) 10 (some "New Name") none
    [entry999] legDay (by decide) (by decide) (by decide)

/-! ### C5 — replace-all semantics of updateWorkout -/

/-- C5: a successful `updateWorkout` that supplies an exercises list leaves
the workout with exactly the rows built from that list (per-entry defaults
applied, one row per entry): no other row carries this workout's id, and —
for a store whose row ids stay below the `SERIAL` counter — no row of the
prior set survives anywhere in the table. -/
theorem updateWorkout_replace_all (db : DB) (wid : Int) (nf : Option String)
    (df : Option (Option String)) (es : List ExerciseEntry)
    (hfresh : ∀ r ∈ db.workoutExercises, r.id < db.nextWorkoutExerciseId)
    (h200 : (updateWorkout db wid nf df (some es)).1.status = 200) :
    ((updateWorkout db wid nf df (some es)).2.workoutExercises.filter
        fun r => decide (r.workoutId = wid)) =
      buildRows wid db.nextWorkoutExerciseId es ∧
    (buildRows wid db.nextWorkoutExerciseId es).length = es.length ∧
    (∀ r ∈ db.workoutExercises, r.workoutId = wid →
      r ∉ (updateWorkout db wid nf df (some es)).2.workoutExercises) := by
  obtain ⟨nn, nd, heq⟩ := updateWorkout_success_some db wid nf df es h200
  rw [heq]
  refine ⟨?_, buildRows_length wid db.nextWorkoutExerciseId es, ?_⟩
  · show ((keptWE db wid ++ buildRows wid db.nextWorkoutExerciseId es).filter
        fun r => decide (r.workoutId = wid)) = buildRows wid db.nextWorkoutExerciseId es
    rw [List.filter_append]
    have h1 : ((keptWE db wid).filter fun r => decide (r.workoutId = wid)) = [] := by
      rw [List.filter_eq_nil_iff]
      intro r hr
      have hne := of_decide_eq_true (List.mem_filter.mp hr).2
      simp only [decide_eq_true_eq]
      exact hne
    have h2 : ((buildRows wid db.nextWorkoutExerciseId es).filter
        fun r => decide (r.workoutId = wid)) = buildRows wid db.nextWorkoutExerciseId es := by
      rw [List.filter_eq_self]
      intro r hr
      have := (mem_buildRows wid db.nextWorkoutExerciseId es r hr).1
      simpa using this
    rw [h1, h2, List.nil_append]
  · intro r hr hwid hmem
    have hmem2 : r ∈ keptWE db wid ++ buildRows wid db.nextWorkoutExerciseId es := hmem
    rcases List.mem_append.mp hmem2 with hk | hrow
    · exact (of_decide_eq_true (List.mem_filter.mp hk).2) hwid
    · have hge := (mem_buildRows wid db.nextWorkoutExerciseId es r hrow).2
      have hlt := hfresh r hr
      omega

/-- C5, witness: replacing workout 10's single exercise-5 row with an
exercise-6 row on the sample store. -/
theorem updateWorkout_replace_all_witness :
    ((updateWorkout sampleDB 10 none none (some [entry6o2])).2.workoutExercises.filter
        fun r => decide (r.workoutId = 10)) =
      buildRows 10 sampleDB.nextWorkoutExerciseId [entry6o2] ∧
    (buildRows 10 sampleDB.nextWorkoutExerciseId [entry6o2]).length = [entry6o2].length ∧
    (∀ r ∈ sampleDB.workoutExercises, r.workoutId = 10 →
      r ∉ (updateWorkout sampleDB 10 none none (some [entry6o2])).2.workoutExercises) :=
  updateWorkout_replace_all sampleDB 10 none none [entry6o2] (by decide) (by decide)

/-! ### C6 — deleteWorkout and its cascade -/

/-- C6: `deleteWorkout` fails NotFound when no workout carries the id;
otherwise it answers 204 with no body and afterwards the workout row is
gone and no `WorkoutExercise` or `Log` row references the workout. -/
theorem deleteWorkout_cascade (db : DB) (wid : Int) :
    ((∀ w ∈ db.workouts, w.id ≠ wid) →
      deleteWorkout db wid = fail db 404 "Workout not found") ∧
    ((∃ w ∈ db.workouts, w.id = wid) →
      (deleteWorkout db wid).1 = { status := 204, error := none } ∧
      (∀ w ∈ (deleteWorkout db wid).2.workouts, w.id ≠ wid) ∧
      (∀ r ∈ (deleteWorkout db wid).2.workoutExercises, r.workoutId ≠ wid) ∧
      (∀ l ∈ (deleteWorkout db wid).2.logs, l.workoutId ≠ wid)) := by
  constructor
  · intro hall
    apply deleteWorkout_notFound
    rw [List.find?_eq_none]
    intro w hw
    simpa using hall w hw
  · intro hex
    have hsome : (db.workouts.find? (fun w => decide (w.id = wid))).isSome := by
      rw [List.find?_isSome]
      obtain ⟨w, hw, hid⟩ := hex
      exact ⟨w, hw, by simpa using hid⟩
    obtain ⟨w0, hf⟩ := Option.isSome_iff_exists.mp hsome
    rw [deleteWorkout_found db wid w0 hf]
    refine ⟨rfl, ?_, ?_, ?_⟩
    · intro w hw
      exact of_decide_eq_true (List.mem_filter.mp hw).2
    · intro r hr
      exact of_decide_eq_true (List.mem_filter.mp hr).2
    · intro l hl
      exact (of_decide_eq_true (List.mem_filter.mp hl).2).1

/-- C6, witness: deleting workout 10 from the sample store removes the
workout, its row and its log. -/
theorem deleteWorkout_cascade_witness :
    (deleteWorkout sampleDB 10).1 = { status := 204, error := none } ∧
    (∀ w ∈ (deleteWorkout sampleDB 10).2.workouts, w.id ≠ 10) ∧
    (∀ r ∈ (deleteWorkout sampleDB 10).2.workoutExercises, r.workoutId ≠ 10) ∧
    (∀ l ∈ (deleteWorkout sampleDB 10).2.logs, l.workoutId ≠ 10) :=
  (deleteWorkout_cascade sampleDB 10).2 (by decide)

/-! ### C7 — deleteExercise blocks, but with 400, not 409 -/

/-- C7, counterexample: exercise 5 exists in the sample store and is
referenced by workout 10's row, yet `deleteExercise` does not answer 409
Conflict: the `P2003` raised by the `RESTRICT` foreign key is mapped by the
controller's catch block to HTTP 400 (the store is still left completely
unchanged). -/
theorem deleteExercise_in_use_no_409 :
    (∃ e ∈ sampleDB.exercises, e.id = 5) ∧
    (∃ r ∈ sampleDB.workoutExercises, r.exerciseId = 5) ∧
    (deleteExercise sampleDB 5).1.status = 400 ∧
    (deleteExercise sampleDB 5).1.status ≠ 409 ∧
    (deleteExercise sampleDB 5).2 = sampleDB := by
  refine ⟨by decide, by decide, by decide, by decide, by decide⟩

/-- C7 (amended): `deleteExercise` on an existing exercise still referenced
by some `WorkoutExercise` row fails with HTTP 400 — not 409 Conflict — and
the message "Cannot delete exercise that is used in workouts. Remove it
from workouts first."; every row of every table is unchanged and the
exercise is never cascade-deleted (the `RESTRICT` foreign-key violation
surfaces as `P2003`, which the controller maps to 400). -/
theorem deleteExercise_in_use_blocked_400 (db : DB) (eid : Int) (e0 : Exercise)
    (hf : db.exercises.find? (fun e => decide (e.id = eid)) = some e0)
    (href : ∃ r ∈ db.workoutExercises, r.exerciseId = eid) :
    deleteExercise db eid =
      fail db 400
        "Cannot delete exercise that is used in workouts. Remove it from workouts first." := by
  apply deleteExercise_blocked db eid e0 hf
  rw [List.any_eq_true]
  obtain ⟨r, hr, hid⟩ := href
  exact ⟨r, hr, by simpa using hid⟩

/-- C7, witness: exercise 5 is referenced by workout 10's row, so deleting
it is blocked with 400 and the sample store is unchanged. -/
theorem deleteExercise_in_use_blocked_400_witness :
    deleteExercise sampleDB 5 =
      fail sampleDB 400
        "Cannot delete exercise that is used in workouts. Remove it from workouts first." :=
  deleteExercise_in_use_blocked_400 sampleDB 5 squat (by decide) (by decide)

/-! ### C8 — createWorkout with a nonexistent owner -/

/-- C8, counterexample: creating a workout for the nonexistent user 42
does answer 404 with nothing persisted, but the body carries the
exercise-not-found message — the `userId` foreign-key violation surfaces
as `P2003`, which the handler maps to "One or more exercises not found",
not to a user-not-found reason (the `P2025` branch never fires here). -/
theorem createWorkout_missing_user_message :
    (createWorkout sampleDB 42 "Leg Day" none (some [entry5o1])).1 =
      { status := 404, error := some "One or more exercises not found" } ∧
    (createWorkout sampleDB 42 "Leg Day" none (some [entry5o1])).1.error ≠
      some "User not found" ∧
    (createWorkout sampleDB 42 "Leg Day" none (some [entry5o1])).2 = sampleDB ∧
    (∀ uu ∈ sampleDB.users, uu.id ≠ 42) := by
  refine ⟨by decide, by decide, by decide, by decide⟩

/-- C8 (amended): a `createWorkout` call that passes validation and the
existence check but whose `ownerUserId` matches no `User` row fails with
HTTP 404 and persists no `Workout` or `WorkoutExercise` row — but the error
body reads "One or more exercises not found" (the `P2003` foreign-key
handler), not a user-specific reason. -/
theorem createWorkout_missing_user_404 (db : DB) (u : Int) (n : String) (d : Option String)
    (es : List ExerciseEntry) (hn : ¬ jsTrim n = "") (hne : ¬ es.isEmpty = true)
    (hlen : ¬ (foundExercises db (es.map ExerciseEntry.exerciseId)).length ≠
      (es.map ExerciseEntry.exerciseId).length)
    (hu : u ∉ db.userIdList) :
    createWorkout db u n d (some es) = fail db 404 "One or more exercises not found" := by
  unfold createWorkout
  rw [if_neg hn]
  dsimp only
  rw [if_neg hne, if_neg hlen, if_pos hu]

/-- C8, witness: the amended statement applied to the missing user 42 on
the sample store. -/
theorem createWorkout_missing_user_404_witness :
    createWorkout sampleDB 42 "Leg Day" none (some [entry5o1]) =
      fail sampleDB 404 "One or more exercises not found" :=
  createWorkout_missing_user_404 sampleDB 42 "Leg Day" none [entry5o1]
    (by decide) (by decide) (by decide) (by decide)

/-! ### C9 — what a successful update may and may not touch -/

/-- C9: a successful `updateWorkout` preserves the workout's `userId` and
`createdAt`, leaves every other workout row unchanged, never touches the
`User` or `Exercise` tables, leaves the `WorkoutExercise` rows of every
other workout unchanged, and keeps every log not referencing one of the
replaced rows. -/
theorem updateWorkout_immutable_frame (db : DB) (wid : Int) (nf : Option String)
    (df : Option (Option String)) (esf : Option (List ExerciseEntry))
    (h200 : (updateWorkout db wid nf df esf).1.status = 200) :
    (updateWorkout db wid nf df esf).2.users = db.users ∧
    (updateWorkout db wid nf df esf).2.exercises = db.exercises ∧
    ((updateWorkout db wid nf df esf).2.workouts.filter fun w => decide (w.id ≠ wid)) =
      (db.workouts.filter fun w => decide (w.id ≠ wid)) ∧
    (∀ w2 ∈ (updateWorkout db wid nf df esf).2.workouts, w2.id = wid →
      ∃ w ∈ db.workouts, w.id = wid ∧ w2.userId = w.userId ∧ w2.createdAt = w.createdAt) ∧
    ((updateWorkout db wid nf df esf).2.workoutExercises.filter
        fun r => decide (r.workoutId ≠ wid)) =
      (db.workoutExercises.filter fun r => decide (r.workoutId ≠ wid)) ∧
    (∀ l ∈ db.logs, l.workoutExerciseId ∉ removedWEIds db wid →
      l ∈ (updateWorkout db wid nf df esf).2.logs) := by
  cases esf with
  | none =>
    obtain ⟨nn, nd, heq⟩ := updateWorkout_success_none db wid nf df h200
    rw [heq]
    refine ⟨rfl, rfl, patchWorkouts_filter_ne db wid nn nd, ?_, rfl, fun l hl _ => hl⟩
    intro w2 hw2 hid
    exact patchWorkouts_mem_target db wid nn nd w2 hw2 hid
  | some es =>
    obtain ⟨nn, nd, heq⟩ := updateWorkout_success_some db wid nf df es h200
    rw [heq]
    refine ⟨rfl, rfl, patchWorkouts_filter_ne db wid nn nd, ?_, ?_, ?_⟩
    · intro w2 hw2 hid
      exact patchWorkouts_mem_target db wid nn nd w2 hw2 hid
    · show ((keptWE db wid ++ buildRows wid db.nextWorkoutExerciseId es).filter
          fun r => decide (r.workoutId ≠ wid)) = _
      rw [List.filter_append]
      have h1 : ((keptWE db wid).filter fun r => decide (r.workoutId ≠ wid)) =
          keptWE db wid := by
        rw [List.filter_eq_self]
        intro r hr
        exact (List.mem_filter.mp hr).2
      have h2 : ((buildRows wid db.nextWorkoutExerciseId es).filter
          fun r => decide (r.workoutId ≠ wid)) = [] := by
        rw [List.filter_eq_nil_iff]
        intro r hr
        have hwid := (mem_buildRows wid db.nextWorkoutExerciseId es r hr).1
        simp [hwid]
      rw [h1, h2, List.append_nil]
      rfl
    · intro l hl hnot
      show l ∈ keptLogs db wid
      rw [keptLogs, List.mem_filter]
      exact ⟨hl, decide_eq_true hnot⟩

/-- C9, witness: renaming workout 10 (no exercises supplied) keeps owner,
creation date, and every other table. -/
theorem updateWorkout_immutable_frame_witness :
    (updateWorkout sampleDB 10 (some "Pull Day") none none).2.users = sampleDB.users ∧
    (updateWorkout sampleDB 10 (some "Pull Day") none none).2.exercises = sampleDB.exercises ∧
    ((updateWorkout sampleDB 10 (some "Pull Day") none none).2.workouts.filter
        fun w => decide (w.id ≠ 10)) =
      (sampleDB.workouts.filter fun w => decide (w.id ≠ 10)) ∧
    (∀ w2 ∈ (updateWorkout sampleDB 10 (some "Pull Day") none none).2.workouts, w2.id = 10 →
      ∃ w ∈ sampleDB.workouts, w.id = 10 ∧ w2.userId = w.userId ∧
        w2.createdAt = w.createdAt) ∧
    ((updateWorkout sampleDB 10 (some "Pull Day") none none).2.workoutExercises.filter
        fun r => decide (r.workoutId ≠ 10)) =
      (sampleDB.workoutExercises.filter fun r => decide (r.workoutId ≠ 10)) ∧
    (∀ l ∈ sampleDB.logs, l.workoutExerciseId ∉ removedWEIds sampleDB 10 →
      l ∈ (updateWorkout sampleDB 10 (some "Pull Day") none none).2.logs) :=
  updateWorkout_immutable_frame sampleDB 10 (some "Pull Day") none none (by decide)

/-! ### C10 — the falsy defaulting of sets and order -/

/-- C10: in both `createWorkout` and `updateWorkout` the committed rows are
exactly the built ones, and a built row's `sets`/`order` is 1 when the
entry's field is absent, null or 0, while any other supplied integer —
negative values included — is stored unchanged; no positivity check exists
on the way to the write. -/
theorem workoutExercise_falsy_defaulting (db : DB) (u wid : Int) (n : String)
    (d : Option String) (nf : Option String) (df : Option (Option String))
    (es : List ExerciseEntry) :
    ((createWorkout db u n d (some es)).1.status = 201 →
      (createWorkout db u n d (some es)).2.workoutExercises =
        db.workoutExercises ++ buildRows db.nextWorkoutId db.nextWorkoutExerciseId es) ∧
    ((updateWorkout db wid nf df (some es)).1.status = 200 →
      (updateWorkout db wid nf df (some es)).2.workoutExercises =
        keptWE db wid ++ buildRows wid db.nextWorkoutExerciseId es) ∧
    (∀ (wid0 rid : Int) (e : ExerciseEntry),
      ((e.sets = none ∨ e.sets = some 0) → (buildRow wid0 rid e).sets = 1) ∧
      (∀ v : Int, e.sets = some v → v ≠ 0 → (buildRow wid0 rid e).sets = v) ∧
      ((e.order = none ∨ e.order = some 0) → (buildRow wid0 rid e).order = 1) ∧
      (∀ v : Int, e.order = some v → v ≠ 0 → (buildRow wid0 rid e).order = v)) := by
  refine ⟨?_, ?_, ?_⟩
  · intro h
    rw [createWorkout_success db u n d es h]
  · intro h
    obtain ⟨nn, nd, heq⟩ := updateWorkout_success_some db wid nf df es h
    rw [heq]
  · intro wid0 rid e
    refine ⟨?_, ?_, ?_, ?_⟩
    · rintro (h | h) <;> simp [buildRow, jsOrOne, h]
    · intro v hv hv0
      simp [buildRow, jsOrOne, hv, hv0]
    · rintro (h | h) <;> simp [buildRow, jsOrOne, h]
    · intro v hv hv0
      simp [buildRow, jsOrOne, hv, hv0]

/-- C10, witness: an entry with `sets = -3` and `order = 0` is committed by
`createWorkout` with `sets` stored as -3 (unvalidated) and `order` coerced
to 1. -/
theorem workoutExercise_falsy_defaulting_witness :
    ((createWorkout sampleDB 1 "Leg Day" none (some [entryNeg])).2.workoutExercises =
      sampleDB.workoutExercises ++
        buildRows sampleDB.nextWorkoutId sampleDB.nextWorkoutExerciseId [entryNeg]) ∧
    (buildRow 11 101 entryNeg).sets = -3 ∧ (buildRow 11 101 entryNeg).order = 1 :=
  ⟨(workoutExercise_falsy_defaulting sampleDB 1 0 "Leg Day" none none none [entryNeg]).1
      (by decide),
   by decide, by decide⟩

end FitnessApi
